import Mathlib

/-!
Shallow embedding of the crush shell fragments under verification:
the `csv` command (`src/commands/csv.rs`), the glob value's method table
(`src/lib/types/glob.rs`) and the builtin registration entry point
(`src/lib/mod.rs`), together with the parts of the value/type model they
use.  Definitions follow the Rust source; components of the crate that are
not part of the provided sources (the `ValueType::parse` cell parser, the
glob matcher, `Value::file_expand`, the binary-reader resolution) are
modelled from the specification and are marked as such in their doc
comments.
-/

deriving instance DecidableEq for Except

namespace Crush

/-- Value type descriptors, mirroring the tags of `Value` (spec section 3,
`ValueType`).  Only the variants the verified fragments touch are included. -/
inductive ValueType where
  | text
  | integer
  | bool
  | glob
  | file
  | binaryReader
  deriving DecidableEq, Repr

/-- Runtime values (spec section 3, `Value`).  A `BinaryReader` is modelled by
the character contents it will deliver; a `Glob` by its pattern string. -/
inductive Value where
  | text (s : String)
  | integer (n : Int)
  | bool (b : Bool)
  | glob (pattern : String)
  | file (path : String)
  | binaryReader (contents : List Char)
  deriving DecidableEq, Repr

/-- The error taxonomy of spec section 7, restricted to the kinds the verified
fragments produce (`JobError` in the source). -/
inductive JobError where
  | argumentError (message : String)
  | parseError (message : String)
  | typeError (message : String)
  | ioError (message : String)
  | closedError
  deriving DecidableEq, Repr

/-- A `(name, ValueType)` pair, `ColumnType::named` in the source. -/
structure ColumnType where
  name : String
  cell_type : ValueType
  deriving DecidableEq, Repr

/-- One argument of a call site: an optional name and a value
(spec section 4.4). -/
structure Argument where
  name : Option String
  value : Value
  deriving DecidableEq, Repr

/-- An ordered, fixed-length sequence of value cells, `Row::new(cells)`. -/
structure Row where
  cells : List Value
  deriving DecidableEq, Repr

/-- Modelled from the spec: `ValueType::from(name) -> ValueType | TypeError`
(spec section 4.1) lives in `crate::data`, which is not among the provided
sources.  It parses a type name into a descriptor and fails with `TypeError`
on unknown names; the scenario names `string` and `integer` map to the
`Text` and `Integer` value tags. -/
def ValueType.ofName (s : String) : Except JobError ValueType :=
  if s = "string" then .ok .text
  else if s = "integer" then .ok .integer
  else if s = "bool" then .ok .bool
  else if s = "glob" then .ok .glob
  else if s = "file" then .ok .file
  else .error (.typeError ("Unknown type " ++ s))

/-- Digit-string to number; `none` when empty or a non-digit appears. -/
def parseDigits (s : List Char) : Option Nat :=
  match s with
  | [] => none
  | _ =>
    s.foldl
      (fun acc c =>
        match acc with
        | none => none
        | some n => if c.isDigit then some (n * 10 + (c.toNat - 48)) else none)
      (some 0)

/-- Integer literal parser: optional leading minus sign, then digits. -/
def parseIntChars : List Char → Option Int
  | '-' :: rest => (parseDigits rest).map (fun n => -(n : Int))
  | s => (parseDigits s).map (fun n => (n : Int))

/-- Modelled from the spec: `ValueType::parse(cell_text) -> Value | ParseError`
(spec section 4.1) lives in `crate::data`, which is not among the provided
sources.  It converts raw text into a value of the given type and fails with
a `ParseError` describing the offending text and the expected type. -/
def ValueType.parseCell : ValueType → List Char → Except JobError Value
  | .text, s => .ok (.text (String.mk s))
  | .integer, s =>
    match parseIntChars s with
    | some n => .ok (.integer n)
    | none => .error (.parseError ("Could not parse " ++ String.mk s ++ " as integer"))
  | .bool, s =>
    if s = "true".data then .ok (.bool true)
    else if s = "false".data then .ok (.bool false)
    else .error (.parseError ("Could not parse " ++ String.mk s ++ " as bool"))
  | t, s => .error (.parseError ("Could not parse " ++ String.mk s ++ " as " ++ toString (repr t)))

end Crush

namespace Csv

open Crush

/-- Observable effects of the csv stage: a row sent to the output stream,
a free-text diagnostic (`printer.error`) or a structured diagnostic
(`printer.job_error`), in program order. -/
inductive Event where
  | row (r : Row)
  | error (message : String)
  | jobError (e : JobError)
  deriving DecidableEq, Repr

/-- The configuration produced by `parse` (struct `Config` in csv.rs); the
boxed `dyn BinaryReader` input is modelled by the characters it delivers. -/
structure Config where
  separator : Char
  columns : List ColumnType
  skip_head : Nat
  trim : Option Char
  input : List Char
  deriving DecidableEq, Repr

/-- Accumulator of the argument loop of `parse` (csv.rs lines 34–38),
with the initial values the source assigns. -/
structure ParseState where
  separator : Char := ','
  columns : List ColumnType := []
  skip_head : Nat := 0
  trim : Option Char := none
  files : List String := []
  deriving DecidableEq, Repr

/-- The initial parse state: `separator = ','`, no columns, `skip_head = 0`,
no trim character, no files. -/
def initState : ParseState := {}

/-- Two to the power 64, the modulus of Rust's `as usize` cast on a 64-bit
target. -/
def usizeModulus : Nat := 18446744073709551616

/-- Rust's `s as usize` on a signed integer value: truncation to the low
64 bits, read as an unsigned word, i.e. reduction modulo 2^64. -/
def usizeOfInt (n : Int) : Nat := (n % (usizeModulus : Int)).toNat

/-- Modelled from the spec: `Value::file_expand` (`crate::data`, not among the
provided sources) appends the file operand(s) denoted by an unnamed argument
value to the accumulated file list (spec section 4.4, bare file operands).
A file path or a textual path contributes itself; other values are modelled
as contributing nothing, since no claim depends on them. -/
def fileExpand (v : Value) (files : List String) : List String :=
  match v with
  | .file f => files ++ [f]
  | .text s => files ++ [s]
  | _ => files

/-- Rust `str::split(sep)` on character contents: split at every separator
occurrence, keeping empty fields, the empty string yielding one empty field. -/
def splitChar (sep : Char) : List Char → List (List Char)
  | [] => [[]]
  | c :: rest =>
    match splitChar sep rest with
    | [] => [[]]
    | h :: t => if c = sep then [] :: h :: t else (c :: h) :: t

/-- One iteration of the argument loop of `parse` (csv.rs lines 40–77):
unnamed arguments are file-expanded; named arguments are matched on
`(name, value)` exactly as the Rust `match`, every unmatched pair falling
through to `Unknown parameter <name>`. -/
def parseArg (st : ParseState) (arg : Argument) : Except JobError ParseState :=
  match arg.name with
  | none => .ok { st with files := fileExpand arg.value st.files }
  | some name =>
    match name, arg.value with
    | "col", .text s =>
      match splitChar ':' s.data with
      | [n, t] =>
        match ValueType.ofName (String.mk t) with
        | .ok ty => .ok { st with columns := st.columns ++ [⟨String.mk n, ty⟩] }
        | .error e => .error e
      | _ =>
        .error (.argumentError
          ("Expected a column description on the form name:type, got " ++ s))
    | "head", .integer s => .ok { st with skip_head := usizeOfInt s }
    | "sep", .text s =>
      if s.length = 1 then .ok { st with separator := s.data.headD ',' }
      else .error (.argumentError "Separator must be exactly one character long")
    | "trim", .text s =>
      if s.length = 1 then .ok { st with trim := some (s.data.headD ' ') }
      else .error (.argumentError "Only one character can be trimmed")
    | _, _ => .error (.argumentError ("Unknown parameter " ++ name))

/-- The argument loop of `parse`: fold `parseArg` over the arguments in
order, an error aborting the loop (Rust `return Err`). -/
def parseArgsLoop (st : ParseState) : List Argument → Except JobError ParseState
  | [] => .ok st
  | a :: rest =>
    match parseArg st a with
    | .error e => .error e
    | .ok st' => parseArgsLoop st' rest

/-- The reader-resolution stage of `parse` (csv.rs lines 79–93): with no file
operand one value is received from the pipeline input and must be a
`BinaryReader`; with exactly one file operand the file is resolved through
the file system `fs` (`BinaryReader::from`, modelled from the spec as
producing the file's contents or an error at parse time); any other count is
an argument error. -/
def resolveReader (files : List String) (input : Except JobError Value)
    (fs : String → Except JobError (List Char)) : Except JobError (List Char) :=
  match files with
  | [] =>
    match input with
    | .ok (.binaryReader b) => .ok b
    | .ok _ => .error (.argumentError "Expected either a file to read or binary pipe input")
    | .error e => .error e
  | [f] => fs f
  | _ => .error (.argumentError "Expected a file name")

/-- `parse` of csv.rs: run the argument loop, resolve the reader, assemble
the configuration. -/
def parse (arguments : List Argument) (input : Except JobError Value)
    (fs : String → Except JobError (List Char)) : Except JobError Config :=
  match parseArgsLoop initState arguments with
  | .error e => .error e
  | .ok st =>
    match resolveReader st.files input fs with
    | .error e => .error e
    | .ok reader => .ok ⟨st.separator, st.columns, st.skip_head, st.trim, reader⟩

/-- Rust `str::trim_matches(c)`: strip every leading and trailing occurrence
of the character `c`. -/
def trimMatches (c : Char) (s : List Char) : List Char :=
  ((s.dropWhile (· = c)).reverse.dropWhile (· = c)).reverse

/-- The trim step applied inside the split's `map` closure
(csv.rs lines 129–131): `trim.map(|c| s.trim_matches(c)).unwrap_or(s)`. -/
def applyTrim (trim : Option Char) (s : List Char) : List Char :=
  match trim with
  | some c => trimMatches c s
  | none => s

/-- The cell list of one line as first collected (csv.rs lines 126–132):
chop the final character (`&line[0..line.len() - 1]`), split on the
separator, apply the trim closure to each field. -/
def splitOf (sep : Char) (trim : Option Char) (line : List Char) : List (List Char) :=
  (splitChar sep line.dropLast).map (fun s => applyTrim trim s)

/-- The cell list after the second trim application of csv.rs lines 136–138
(`split = split.map(|s| s.trim_matches(trim))` when a trim character is set). -/
def splitTrimmed (sep : Char) (trim : Option Char) (line : List Char) : List (List Char) :=
  match trim with
  | some c => (splitOf sep trim line).map (trimMatches c)
  | none => splitOf sep trim line

/-- Rust `iter().map(parse).collect::<Result<Vec<_>, _>>()`: parse every
(cell, column) pair, stopping at the first parse error. -/
def collectParse : List (List Char × ColumnType) → Except JobError (List Value)
  | [] => .ok []
  | (s, t) :: rest =>
    match t.cell_type.parseCell s with
    | .error e => .error e
    | .ok v =>
      match collectParse rest with
      | .error e => .error e
      | .ok vs => .ok (v :: vs)

/-- The body of the csv loop for one non-skipped line (csv.rs lines 126–146):
report a column-count mismatch to the printer (without skipping the line),
zip the cells with the columns, and either send a row or report the first
cell-parse error to the printer. -/
def processLine (sep : Char) (trim : Option Char) (cols : List ColumnType)
    (line : List Char) : List Event :=
  (if (splitOf sep trim line).length ≠ cols.length
    then [Event.error "csv: Wrong number of columns in CSV file"] else [])
  ++ match collectParse ((splitTrimmed sep trim line).zip cols) with
     | .ok cells => [Event.row ⟨cells⟩]
     | .error e => [Event.jobError e]

/-- The iteration of `BufReader::read_line` in the csv loop (csv.rs
lines 113–121): the input splits into segments each ending in a newline,
except possibly the last; reading stops when a read delivers the empty
string. -/
def readLines : List Char → List (List Char)
  | [] => []
  | c :: rest =>
    if c = '\n' then [c] :: readLines rest
    else
      match readLines rest with
      | [] => [[c]]
      | l :: ls => (c :: l) :: ls

/-- The csv loop over the line sequence (csv.rs lines 115–147): while
`skipped < skip` a line is consumed and counted without processing;
afterwards every line goes through `processLine`. -/
def runLoop (sep : Char) (trim : Option Char) (cols : List ColumnType)
    (skip : Nat) : Nat → List (List Char) → List Event
  | _, [] => []
  | skipped, line :: rest =>
    if skipped < skip then runLoop sep trim cols skip (skipped + 1) rest
    else processLine sep trim cols line ++ runLoop sep trim cols skip skipped rest

/-- `run` of csv.rs: emit the loop's events and return `Ok(())`
unconditionally (csv.rs line 148). -/
def run (cfg : Config) : List Event × Except JobError Unit :=
  (runLoop cfg.separator cfg.trim cfg.columns cfg.skip_head 0 (readLines cfg.input),
   .ok ())

/-- Observable outcome of `perform`: the schema the output stream was bound
to (`none` when the stream was never bound), the emitted events, and the
returned job result. -/
structure PerformResult where
  schema : Option (List ColumnType)
  events : List Event
  result : Except JobError Unit
  deriving DecidableEq, Repr

/-- `perform` of csv.rs: parse the arguments (an error propagating before the
output stream is bound), bind the output stream to the configured columns,
then run the loop. -/
def perform (arguments : List Argument) (input : Except JobError Value)
    (fs : String → Except JobError (List Char)) : PerformResult :=
  match parse arguments input fs with
  | .error e => ⟨none, [], .error e⟩
  | .ok cfg =>
    let (events, res) := run cfg
    ⟨some cfg.columns, events, res⟩

end Csv

namespace GlobType

open Crush

/-- Modelled from the spec: the glob matcher `crate::util::glob::Glob::matches`
is not among the provided sources.  Spec scenario C fixes its contract on the
star wildcard: `*` matches any character sequence, `?` a single character,
any other pattern character only itself; the whole pattern must cover the
whole candidate.  Structural recursion on the pattern: a star tries every
suffix of the remaining candidate. -/
def globMatches : List Char → List Char → Bool
  | [], s => s.isEmpty
  | c :: ps, s =>
    if c = '*' then
      (List.range (s.length + 1)).any (fun k => globMatches ps (s.drop k))
    else
      match s with
      | [] => false
      | d :: s' => (c = '?' || c = d) && globMatches ps s'

/-- The execution-context fragment the glob methods consume: the receiver
value (`this`) and the argument vector (spec section 3,
`ExecutionContext`). -/
structure MethodContext where
  this : Option Value
  arguments : List Argument
  deriving DecidableEq, Repr

/-- Modelled from the spec: `This::glob` of `crate::lang::execution_context`
(not among the provided sources) extracts the glob receiver, failing with a
type error when `this` is absent or not a glob. -/
def This.glob : Option Value → Except JobError String
  | some (.glob g) => .ok g
  | _ => .error (.typeError "Expected a glob")

/-- Modelled from the spec: `ArgumentVector::string(idx)` of
`crate::lang::execution_context` (not among the provided sources) extracts
argument `idx`, which must be a text value, failing with an argument error
otherwise. -/
def ArgumentVector.string (args : List Argument) (idx : Nat) : Except JobError String :=
  match args[idx]? with
  | some ⟨_, .text s⟩ => .ok s
  | _ => .error (.argumentError "Expected a string argument")

/-- The method context for a method-style call `g:pattern <method> s`:
receiver a glob value, one unnamed string argument. -/
def globCtx (pattern : String) (s : String) : MethodContext :=
  ⟨some (.glob pattern), [⟨none, .text s⟩]⟩

/-- The `new` method of glob.rs (lines 61–64): take the string argument and
send a glob value built from it; the sent value (or the failure) is the
method's observable result. -/
def glob_new (context : MethodContext) : Except JobError Value :=
  match ArgumentVector.string context.arguments 0 with
  | .error e => .error e
  | .ok d => .ok (.glob d)

/-- The `match` method of glob.rs (lines 66–70): extract the glob receiver
and the string argument, send the boolean match result. -/
def glob_match (context : MethodContext) : Except JobError Value :=
  match This.glob context.this with
  | .error e => .error e
  | .ok g =>
    match ArgumentVector.string context.arguments 0 with
    | .error e => .error e
    | .ok needle => .ok (.bool (globMatches g.data needle.data))

/-- The `not_match` method of glob.rs (lines 72–76): as `match`, but the sent
boolean is negated (`!g.matches(&needle)`). -/
def glob_not_match (context : MethodContext) : Except JobError Value :=
  match This.glob context.this with
  | .error e => .error e
  | .ok g =>
    match ArgumentVector.string context.arguments 0 with
    | .error e => .error e
    | .ok needle => .ok (.bool (! globMatches g.data needle.data))

end GlobType

namespace Lib

open Crush

/-- Observable scope operations of the builtin registration entry point
(`mod.rs` lines 29–45): one declaration batch per builtin module, and the
`readonly()` freeze of the root scope (spec section 6, Scope contract). -/
inductive ScopeEvent where
  | declare (module : String)
  | readonly
  deriving DecidableEq, Repr

/-- The builtin modules in the order `declare` of mod.rs calls them
(lines 30–42). -/
def moduleOrder : List String :=
  ["type", "time", "math", "comp", "cond", "traversal", "var", "stream",
   "types", "proc", "input", "control", "constants"]

/-- The `?`-chain of mod.rs: declare each module in order; the first failing
module aborts with its error before any later module and before the freeze;
when every module succeeds, `readonly()` is called once, after all
declarations, and `Ok(())` is returned.  The per-module declaration bodies
live in submodules that are not among the provided sources, so each module's
outcome is an abstract parameter `results`. -/
def declChain (results : String → Except JobError Unit) :
    List String → List ScopeEvent × Except JobError Unit
  | [] => ([ScopeEvent.readonly], .ok ())
  | m :: ms =>
    match results m with
    | .error e => ([ScopeEvent.declare m], .error e)
    | .ok () =>
      (ScopeEvent.declare m :: (declChain results ms).1, (declChain results ms).2)

/-- `declare` of mod.rs: the chain over the thirteen builtin modules. -/
def declare (results : String → Except JobError Unit) :
    List ScopeEvent × Except JobError Unit :=
  declChain results moduleOrder

end Lib

open Crush

/-- Splitting the argument list distributes over the argument loop: the loop
runs the first part and, when that succeeds, continues on the second. -/
theorem Csv.parseArgsLoop_append (st : Csv.ParseState) (xs ys : List Argument) :
    Csv.parseArgsLoop st (xs ++ ys) =
      match Csv.parseArgsLoop st xs with
      | .error e => .error e
      | .ok st' => Csv.parseArgsLoop st' ys := by
  induction xs generalizing st with
  | nil => rfl
  | cons a xs ih =>
    simp only [List.cons_append, Csv.parseArgsLoop]
    cases h : Csv.parseArg st a with
    | error e => rfl
    | ok st' => exact ih st'

/-- A named argument whose name is none of col, head, sep, trim falls through
every arm of the match in `parse` and produces the unknown-parameter error. -/
theorem Csv.parseArg_unknown (st : Csv.ParseState) (name : String) (v : Value)
    (h1 : name ≠ "col") (h2 : name ≠ "head") (h3 : name ≠ "sep") (h4 : name ≠ "trim") :
    Csv.parseArg st ⟨some name, v⟩ =
      .error (.argumentError ("Unknown parameter " ++ name)) := by
  show (match name, v with
        | "col", Value.text s => _
        | "head", Value.integer s => _
        | "sep", Value.text s => _
        | "trim", Value.text s => _
        | _, _ => _) = _
  split
  · exact absurd rfl h1
  · exact absurd rfl h2
  · exact absurd rfl h3
  · exact absurd rfl h4
  · rfl

/-- Skipping with the counter equals dropping the outstanding number of lines
up front and running with no skip. -/
theorem Csv.runLoop_skip_drop (sep : Char) (trim : Option Char)
    (cols : List ColumnType) (skip : Nat) (lines : List (List Char)) (skipped : Nat) :
    Csv.runLoop sep trim cols skip skipped lines =
      Csv.runLoop sep trim cols 0 0 (lines.drop (skip - skipped)) := by
  induction lines generalizing skipped with
  | nil => simp [Csv.runLoop]
  | cons l rest ih =>
    by_cases h : skipped < skip
    · have hs : skip - skipped = (skip - (skipped + 1)) + 1 := by omega
      simp only [Csv.runLoop, if_pos h, hs, List.drop_succ_cons]
      exact ih (skipped + 1)
    · have h0 : skip - skipped = 0 := by omega
      simp only [Csv.runLoop, if_neg h, h0, List.drop_zero]
      have := ih skipped
      rw [h0, List.drop_zero] at this
      rw [this]
      simp [Csv.runLoop]

/-- When every module declaration succeeds, the chain emits one declaration
batch per module in order, followed by exactly one `readonly`, and returns
success. -/
theorem Lib.declChain_all_ok (results : String → Except JobError Unit)
    (ms : List String) (h : ∀ m ∈ ms, results m = .ok ()) :
    Lib.declChain results ms =
      (ms.map Lib.ScopeEvent.declare ++ [Lib.ScopeEvent.readonly], .ok ()) := by
  induction ms with
  | nil => rfl
  | cons m ms ih =>
    have hm : results m = .ok () := h m (by simp)
    have hrec := ih (fun x hx => h x (by simp [hx]))
    simp [Lib.declChain, hm, hrec]

/-- When some module in the list fails, the chain never emits `readonly`
and its result is an error. -/
theorem Lib.declChain_mem_error (results : String → Except JobError Unit)
    (ms : List String) (m : String) (e : JobError)
    (hmem : m ∈ ms) (hm : results m = .error e) :
    Lib.ScopeEvent.readonly ∉ (Lib.declChain results ms).1 ∧
    ∃ e', (Lib.declChain results ms).2 = .error e' := by
  induction ms with
  | nil => simp at hmem
  | cons x ms ih =>
    cases hx : results x with
    | error e' =>
      refine ⟨?_, ⟨e', ?_⟩⟩ <;> simp [Lib.declChain, hx]
    | ok u =>
      cases u
      have hmem' : m ∈ ms := by
        rcases List.mem_cons.mp hmem with h | h
        · subst h; rw [hx] at hm; simp at hm
        · exact h
      obtain ⟨h1, h2⟩ := ih hmem'
      constructor
      · simp only [Lib.declChain, hx]
        simpa using h1
      · simpa [Lib.declChain, hx] using h2

/-- When every module before `m` succeeds and `m` fails with `e`, the chain
stops at `m`: it emits exactly the successful declaration batches followed by
the failing one — no `readonly` — and returns `m`'s error. -/
theorem Lib.declChain_first_error (results : String → Except JobError Unit)
    (pre : List String) (m : String) (post : List String) (e : JobError)
    (hpre : ∀ x ∈ pre, results x = .ok ()) (hm : results m = .error e) :
    Lib.declChain results (pre ++ m :: post) =
      (pre.map Lib.ScopeEvent.declare ++ [Lib.ScopeEvent.declare m], .error e) := by
  induction pre with
  | nil => simp [Lib.declChain, hm]
  | cons x pre ih =>
    have hx : results x = .ok () := hpre x (by simp)
    have hrec := ih (fun y hy => hpre y (by simp [hy]))
    simp [Lib.declChain, hx, hrec]

/-- C1: with columns `name:string` and `age:integer`, separator `,` and
`head = 0`, reading the binary input `"alice,30\nbob,not-a-number\n"`, the
output stream is bound to the two-column schema and receives exactly one row
(`Text "alice"`, `Integer 30`); exactly one parse error (for the second
line) goes to the diagnostics sink; the command returns success. -/
theorem csv_scenario_a :
    Csv.perform
      [⟨some "col", .text "name:string"⟩, ⟨some "col", .text "age:integer"⟩,
       ⟨some "sep", .text ","⟩, ⟨some "head", .integer 0⟩]
      (.ok (.binaryReader "alice,30\nbob,not-a-number\n".data))
      (fun _ => .error (.ioError "no file system")) =
      ⟨some [⟨"name", .text⟩, ⟨"age", .integer⟩],
       [.row ⟨[.text "alice", .integer 30]⟩,
        .jobError (.parseError "Could not parse not-a-number as integer")],
       .ok ()⟩ := by
  decide

/-- C2 counterexample: one configured column, input line `"a,b\n"`: the field
count 2 differs from the column count 1, the mismatch is reported, and yet a
Row (`Text "a"`, from the truncating zip) is still sent — the claim that the
mismatching row is skipped is false. -/
theorem csv_column_mismatch_row_still_sent :
    (Csv.splitOf ',' none "a,b\n".data).length ≠
      ([⟨"name", ValueType.text⟩] : List ColumnType).length ∧
    Csv.run ⟨',', [⟨"name", ValueType.text⟩], 0, none, "a,b\n".data⟩ =
      ([.error "csv: Wrong number of columns in CSV file", .row ⟨[.text "a"]⟩],
       .ok ()) := by
  decide

/-- C2 amended: a line whose field count differs from the column count is
reported to the diagnostics sink but not skipped — the fields are zipped with
the columns (truncating to the shorter list), parsing proceeds, a Row is sent
when every zipped cell parses, and the stage continues with the next line. -/
theorem csv_column_mismatch_reported_not_skipped (sep : Char) (trim : Option Char)
    (cols : List ColumnType) (line : List Char) (rest : List (List Char))
    (h : (Csv.splitOf sep trim line).length ≠ cols.length) :
    Csv.runLoop sep trim cols 0 0 (line :: rest) =
      Csv.Event.error "csv: Wrong number of columns in CSV file" ::
      ((match Csv.collectParse ((Csv.splitTrimmed sep trim line).zip cols) with
        | .ok cells => [Csv.Event.row ⟨cells⟩]
        | .error e => [Csv.Event.jobError e]) ++
       Csv.runLoop sep trim cols 0 0 rest) := by
  simp only [Csv.runLoop, Nat.lt_irrefl, if_false, Csv.processLine, if_pos h]
  simp [List.append_assoc]

theorem csv_column_mismatch_reported_not_skipped_witness :
    Csv.runLoop ',' none [⟨"name", ValueType.text⟩] 0 0 ["a,b\n".data] =
      Csv.Event.error "csv: Wrong number of columns in CSV file" ::
      ((match Csv.collectParse
          ((Csv.splitTrimmed ',' none "a,b\n".data).zip [⟨"name", ValueType.text⟩]) with
        | .ok cells => [Csv.Event.row ⟨cells⟩]
        | .error e => [Csv.Event.jobError e]) ++
       Csv.runLoop ',' none [⟨"name", ValueType.text⟩] 0 0 []) :=
  csv_column_mismatch_reported_not_skipped ',' none [⟨"name", ValueType.text⟩]
    "a,b\n".data [] (by decide)

/-- C3: an argument list whose prefix parses successfully and then carries a
named argument with a name other than col, head, sep, trim makes `parse`
fail with `ArgumentError "Unknown parameter <name>"`; `perform` therefore
never binds the output stream and produces no events. -/
theorem csv_unknown_parameter_fails (pre rest : List Argument) (name : String)
    (v : Value) (st : Csv.ParseState)
    (h1 : name ≠ "col") (h2 : name ≠ "head") (h3 : name ≠ "sep") (h4 : name ≠ "trim")
    (hpre : Csv.parseArgsLoop Csv.initState pre = .ok st)
    (input : Except JobError Value) (fs : String → Except JobError (List Char)) :
    Csv.perform (pre ++ ⟨some name, v⟩ :: rest) input fs =
      ⟨none, [], .error (.argumentError ("Unknown parameter " ++ name))⟩ := by
  have hloop : Csv.parseArgsLoop Csv.initState (pre ++ ⟨some name, v⟩ :: rest) =
      .error (.argumentError ("Unknown parameter " ++ name)) := by
    rw [Csv.parseArgsLoop_append, hpre]
    simp only [Csv.parseArgsLoop, Csv.parseArg_unknown st name v h1 h2 h3 h4]
  simp [Csv.perform, Csv.parse, hloop]

theorem csv_unknown_parameter_fails_witness :
    Csv.perform [⟨some "sep", .text ";"⟩, ⟨some "foo", .integer 1⟩]
      (.ok (.binaryReader [])) (fun _ => .error (.ioError "no file system")) =
      ⟨none, [], .error (.argumentError ("Unknown parameter " ++ "foo"))⟩ :=
  csv_unknown_parameter_fails [⟨some "sep", .text ";"⟩] [] "foo" (.integer 1)
    ⟨';', [], 0, none, []⟩ (by decide) (by decide) (by decide) (by decide) (by decide)
    (.ok (.binaryReader [])) (fun _ => .error (.ioError "no file system"))

/-- C4: exactly one input source must be resolvable.  With no file operand
the pipeline input is received and must be a binary reader, any other value
giving an argument error and a receive failure propagating; with exactly one
file operand the file is resolved through the file system at parse time, a
resolution error surfacing from `perform` before the output stream is bound
and before any row; with two or more file operands parsing fails with an
argument error. -/
theorem csv_input_source_resolution (args : List Argument)
    (input : Except JobError Value) (fs : String → Except JobError (List Char))
    (st : Csv.ParseState) (hargs : Csv.parseArgsLoop Csv.initState args = .ok st) :
    (st.files = [] → ∀ b, input = .ok (.binaryReader b) →
      Csv.parse args input fs =
        .ok ⟨st.separator, st.columns, st.skip_head, st.trim, b⟩) ∧
    (st.files = [] → ∀ v, input = .ok v → (∀ b, v ≠ .binaryReader b) →
      Csv.parse args input fs =
        .error (.argumentError "Expected either a file to read or binary pipe input")) ∧
    (st.files = [] → ∀ e, input = .error e → Csv.parse args input fs = .error e) ∧
    (∀ f, st.files = [f] →
      (∀ b, fs f = .ok b →
        Csv.parse args input fs =
          .ok ⟨st.separator, st.columns, st.skip_head, st.trim, b⟩) ∧
      (∀ e, fs f = .error e →
        Csv.perform args input fs = ⟨none, [], .error e⟩)) ∧
    (2 ≤ st.files.length →
      Csv.parse args input fs = .error (.argumentError "Expected a file name")) := by
  refine ⟨?_, ?_, ?_, ?_, ?_⟩
  · intro hf b hi
    simp [Csv.parse, hargs, Csv.resolveReader, hf, hi]
  · intro hf v hi hnb
    cases v <;> simp [Csv.parse, hargs, Csv.resolveReader, hf, hi]
    exact absurd rfl (hnb _)
  · intro hf e hi
    simp [Csv.parse, hargs, Csv.resolveReader, hf, hi]
  · intro f hf
    constructor
    · intro b hb
      simp [Csv.parse, hargs, Csv.resolveReader, hf, hb]
    · intro e he
      simp [Csv.perform, Csv.parse, hargs, Csv.resolveReader, hf, he]
  · intro h2
    match hf : st.files, h2 with
    | f1 :: f2 :: fs', _ =>
      simp [Csv.parse, hargs, Csv.resolveReader, hf]

theorem csv_input_source_resolution_witness :
    Csv.parse [⟨none, .file "data.csv"⟩] (.error .closedError)
      (fun _ => .ok "x\n".data) = .ok ⟨',', [], 0, none, "x\n".data⟩ :=
  ((csv_input_source_resolution [⟨none, .file "data.csv"⟩] (.error .closedError)
      (fun _ => .ok "x\n".data) ⟨',', [], 0, none, ["data.csv"]⟩
      (by decide)).2.2.2.1 "data.csv" rfl).1 "x\n".data rfl

/-- C5: calling method `match` on a glob value built from pattern `*.txt`
with argument `report.txt` sends `Bool true`; with argument `report.md` it
sends `Bool false`. -/
theorem glob_match_scenario_c :
    GlobType.glob_match (GlobType.globCtx "*.txt" "report.txt") =
      .ok (.bool true) ∧
    GlobType.glob_match (GlobType.globCtx "*.txt" "report.md") =
      .ok (.bool false) := by
  decide

/-- C6: the csv stage skips exactly the first `skip_head` lines of its input
before the per-line split/parse/send logic: its event trace equals the
no-skip processing of the input's line sequence with the first `skip_head`
lines dropped. -/
theorem csv_head_skips_lines (cfg : Csv.Config) :
    (Csv.run cfg).1 =
      Csv.runLoop cfg.separator cfg.trim cfg.columns 0 0
        ((Csv.readLines cfg.input).drop cfg.skip_head) := by
  have h := Csv.runLoop_skip_drop cfg.separator cfg.trim cfg.columns cfg.skip_head
    (Csv.readLines cfg.input) 0
  simpa [Csv.run] using h

/-- C7: for every assignment of outcomes to the builtin modules, the
registration entry point declares all thirteen modules in order and freezes
the root scope with `readonly` exactly once, after all declarations, when
every module succeeds; if any module's declaration fails, `readonly` is
never emitted and an error is returned — the first failing module stops the
chain and its error is the one returned — so `readonly` having been emitted
implies every module's declaration succeeded. -/
theorem lib_declare_freeze_discipline (results : String → Except JobError Unit) :
    ((∀ m ∈ Lib.moduleOrder, results m = .ok ()) →
      Lib.declare results =
        (Lib.moduleOrder.map Lib.ScopeEvent.declare ++ [Lib.ScopeEvent.readonly],
         .ok ())) ∧
    (∀ m ∈ Lib.moduleOrder, ∀ e, results m = .error e →
      Lib.ScopeEvent.readonly ∉ (Lib.declare results).1 ∧
      ∃ e', (Lib.declare results).2 = .error e') ∧
    (∀ pre m post e, Lib.moduleOrder = pre ++ m :: post →
      (∀ x ∈ pre, results x = .ok ()) → results m = .error e →
      Lib.declare results =
        (pre.map Lib.ScopeEvent.declare ++ [Lib.ScopeEvent.declare m], .error e)) ∧
    (Lib.ScopeEvent.readonly ∈ (Lib.declare results).1 →
      ∀ m ∈ Lib.moduleOrder, results m = .ok ()) := by
  refine ⟨?_, ?_, ?_, ?_⟩
  · intro h
    exact Lib.declChain_all_ok results Lib.moduleOrder h
  · intro m hmem e hm
    exact Lib.declChain_mem_error results Lib.moduleOrder m e hmem hm
  · intro pre m post e horder hpre hm
    show Lib.declChain results Lib.moduleOrder = _
    rw [horder]
    exact Lib.declChain_first_error results pre m post e hpre hm
  · intro hro m hmem
    cases hr : results m with
    | ok u => cases u; rfl
    | error e =>
      obtain ⟨h1, _⟩ := Lib.declChain_mem_error results Lib.moduleOrder m e hmem hr
      exact absurd hro h1

theorem lib_declare_freeze_discipline_witness :
    (Lib.ScopeEvent.readonly ∉
      (Lib.declare (fun m =>
        if m = "math" then .error (.argumentError "boom") else .ok ())).1 ∧
     ∃ e', (Lib.declare (fun m =>
        if m = "math" then .error (.argumentError "boom") else .ok ())).2 =
          .error e') ∧
    Lib.declare (fun m =>
        if m = "math" then .error (.argumentError "boom") else .ok ()) =
      ([Lib.ScopeEvent.declare "type", Lib.ScopeEvent.declare "time",
        Lib.ScopeEvent.declare "math"], .error (.argumentError "boom")) :=
  ⟨(lib_declare_freeze_discipline (fun m =>
      if m = "math" then .error (.argumentError "boom") else .ok ())).2.1
      "math" (by decide) (.argumentError "boom") (by decide),
   (lib_declare_freeze_discipline (fun m =>
      if m = "math" then .error (.argumentError "boom") else .ok ())).2.2.1
      ["type", "time"] "math"
      ["comp", "cond", "traversal", "var", "stream", "types", "proc", "input",
       "control", "constants"]
      (.argumentError "boom") (by decide) (by decide) (by decide)⟩

/-- C8: on a glob receiver and a string argument, `not_match` sends `Bool b`
exactly when `match` sends `Bool (not b)`: both methods succeed, and the
booleans they send are negations of each other. -/
theorem glob_not_match_negates_match (g s : String) (b : Bool) :
    GlobType.glob_not_match (GlobType.globCtx g s) = .ok (.bool b) ↔
    GlobType.glob_match (GlobType.globCtx g s) = .ok (.bool (! b)) := by
  have h1 : GlobType.glob_match (GlobType.globCtx g s) =
      .ok (.bool (GlobType.globMatches g.data s.data)) := rfl
  have h2 : GlobType.glob_not_match (GlobType.globCtx g s) =
      .ok (.bool (! GlobType.globMatches g.data s.data)) := rfl
  rw [h1, h2]
  cases b <;> cases hm : GlobType.globMatches g.data s.data <;> simp

theorem glob_not_match_negates_match_witness :
    GlobType.glob_not_match (GlobType.globCtx "*.txt" "report.txt") =
      .ok (.bool false) ↔
    GlobType.glob_match (GlobType.globCtx "*.txt" "report.txt") =
      .ok (.bool true) :=
  glob_not_match_negates_match "*.txt" "report.txt" false

/-- C9: the csv loop removes the final character of every line it reads
before splitting, whether or not that character is a newline: on the
newline-terminated input `"hi\n"` the single configured text column receives
`"hi"`, while on the unterminated input `"hi"` the last data character is
dropped and the column receives `"h"`. -/
theorem csv_drops_final_char_without_newline :
    Csv.run ⟨',', [⟨"line", ValueType.text⟩], 0, none, "hi\n".data⟩ =
      ([.row ⟨[.text "hi"]⟩], .ok ()) ∧
    Csv.run ⟨',', [⟨"line", ValueType.text⟩], 0, none, "hi".data⟩ =
      ([.row ⟨[.text "h"]⟩], .ok ()) := by
  decide

/-- C10: a negative `head` argument is not rejected: `parse` succeeds and the
`as usize` cast makes `skip_head` the argument's value modulo 2^64, and the
stage then skips up to that many lines — on any input with at most that many
lines it emits no row and no diagnostic and still returns success. -/
theorem csv_negative_head_wraps (n : Int) (hn : n < 0) (f : String)
    (contents : List Char) (input : Except JobError Value)
    (fs : String → Except JobError (List Char)) (hf : fs f = .ok contents)
    (hlen : (Csv.readLines contents).length ≤ Csv.usizeOfInt n) :
    Csv.usizeOfInt n = ((n % ((2 : Int) ^ 64)).toNat) ∧
    Csv.parse [⟨some "head", .integer n⟩, ⟨none, .file f⟩] input fs =
      .ok ⟨',', [], Csv.usizeOfInt n, none, contents⟩ ∧
    Csv.run ⟨',', [], Csv.usizeOfInt n, none, contents⟩ = ([], .ok ()) := by
  refine ⟨by norm_num [Csv.usizeOfInt, Csv.usizeModulus], ?_, ?_⟩
  · simp [Csv.parse, Csv.parseArgsLoop, Csv.parseArg, Csv.initState,
      Csv.fileExpand, Csv.resolveReader, hf]
  · have h := Csv.runLoop_skip_drop ',' none [] (Csv.usizeOfInt n)
      (Csv.readLines contents) 0
    rw [Nat.sub_zero] at h
    rw [List.drop_eq_nil_of_le hlen] at h
    simp [Csv.run, h, Csv.runLoop]

theorem csv_negative_head_wraps_witness :
    (-1 : Int) < 0 ∧
    Csv.parse [⟨some "head", .integer (-1)⟩, ⟨none, .file "x"⟩]
      (.error .closedError) (fun _ => .ok "a\n".data) =
      .ok ⟨',', [], Csv.usizeOfInt (-1), none, "a\n".data⟩ ∧
    Csv.run ⟨',', [], Csv.usizeOfInt (-1), none, "a\n".data⟩ = ([], .ok ()) :=
  ⟨by decide,
   (csv_negative_head_wraps (-1) (by decide) "x" "a\n".data (.error .closedError)
      (fun _ => .ok "a\n".data) rfl (by decide)).2⟩

/-- C3 counterexample: the argument list `[col "bad", foo 1]` contains the
unknown-named argument `foo`, and parsing does fail before any output, but
the arguments are processed in order, so the reported `ArgumentError` is the
one of the earlier malformed `col` argument and its message does not contain
the name `foo`. -/
theorem csv_unknown_parameter_message_not_universal :
    (⟨some "foo", Value.integer 1⟩ : Argument) ∈
      ([⟨some "col", Value.text "bad"⟩, ⟨some "foo", Value.integer 1⟩] :
        List Argument) ∧
    Csv.perform [⟨some "col", .text "bad"⟩, ⟨some "foo", .integer 1⟩]
      (.ok (.binaryReader [])) (fun _ => .error (.ioError "no file system")) =
      ⟨none, [],
       .error (.argumentError
         "Expected a column description on the form name:type, got bad")⟩ ∧
    ¬ "foo".data <:+:
      "Expected a column description on the form name:type, got bad".data := by
  refine ⟨by decide, by decide, by decide⟩

theorem csv_head_skips_lines_witness :
    (Csv.run ⟨',', [⟨"a", ValueType.text⟩], 1, none, "x\ny\n".data⟩).1 =
      Csv.runLoop ',' none [⟨"a", ValueType.text⟩] 0 0
        ((Csv.readLines "x\ny\n".data).drop 1) :=
  csv_head_skips_lines ⟨',', [⟨"a", ValueType.text⟩], 1, none, "x\ny\n".data⟩
